import Mathlib

/-!
Shallow embedding of the stackful-coroutine spawn facility and the worker
thread group of this asio fork, together with theorems checking the
specification's claims against it.

Sources embedded:
- `src/asio/include/asio/spawn.hpp` — `basic_yield_context`,
  `detail::spawn_signature`, the `spawn` overload set;
- `src/asio/include/asio/detail/thread_group.hpp` — `thread_group`;
- `src/unnamed/part_000` (`detail/polyfill_thread.hpp`) — `polyfill_thread`.

The bodies behind `asio/impl/spawn.hpp` (the resumption handling, the
launcher `initiate_spawn`) are not part of the sources; where a claim
depends on them, the corresponding definition is modelled from the spec
and says so in its doc comment.
-/

namespace Asio

/-- `asio::error_code`, by value; `0` is the success value. -/
abbrev ErrorCode := Nat

/-- A captured exception (`std::exception_ptr`), opaque, by identity. -/
abbrev ExceptionPtr := Nat

/-! ## basic_yield_context (src/asio/include/asio/spawn.hpp, lines 74-142) -/

/-- `basic_yield_context<Executor>`: data members `spawned_thread_`
(a `detail::spawned_thread_base*`, modelled by the pointed-to task's
identity), `executor_` (an `Executor` held by value), and `ec_`
(an `asio::error_code*`: null, or the address of a caller-supplied slot,
modelled as `Option` of a slot address). -/
structure BasicYieldContext (Executor : Type) where
  spawned_thread_ : Nat
  executor_ : Executor
  ec_ : Option Nat
deriving Repr, DecidableEq

/-- The private constructor
`basic_yield_context(detail::spawned_thread_base*, const Executor&)`
(spawn.hpp lines 130-136): stores both pointers and initialises `ec_(0)`. -/
def BasicYieldContext.ofTask {E : Type} (spawned_thread : Nat) (ex : E) :
    BasicYieldContext E :=
  ⟨spawned_thread, ex, none⟩

/-- `basic_yield_context::operator[](asio::error_code& ec)` (spawn.hpp
lines 121-126): takes a copy `tmp` of `*this`, sets `tmp.ec_ = &ec`, and
returns it. -/
def BasicYieldContext.indexOp {E : Type} (self : BasicYieldContext E)
    (ecAddr : Nat) : BasicYieldContext E :=
  { self with ec_ := some ecAddr }

/-- The converting constructor
`basic_yield_context(const basic_yield_context<OtherExecutor>&)`
(spawn.hpp lines 85-94): requires `is_convertible<OtherExecutor, Executor>`
— embedded as the conversion function `conv` — and initialises
`spawned_thread_(other.spawned_thread_)`, `executor_(other.executor_)`
(converted), `ec_(other.ec_)`. -/
def BasicYieldContext.convert {E1 E2 : Type} (conv : E1 → E2)
    (other : BasicYieldContext E1) : BasicYieldContext E2 :=
  ⟨other.spawned_thread_, conv other.executor_, other.ec_⟩

/-- `basic_yield_context::get_executor()` (spawn.hpp lines 97-100). -/
def BasicYieldContext.get_executor {E : Type} (self : BasicYieldContext E) :
    E :=
  self.executor_

/-- The memory holding caller-supplied `error_code` slots, by address. -/
abbrev EcStore := Nat → ErrorCode

/-- Modelled from the spec: the resumption handling of a yield-context
completion handler lives in `asio/impl/spawn.hpp`, which is not among the
sources. Per the spec, on resumption with completion error `ec`: if the
context carries an external error-output slot (set via `yield[ec]`), the
error is written there and no exception is raised; otherwise a non-success
error is converted into a thrown error object at the suspension point.
`.ok` is the store after a non-throwing return, `.error` a throw. -/
def yieldResume {E : Type} (ctx : BasicYieldContext E) (ec : ErrorCode)
    (store : EcStore) : Except ErrorCode EcStore :=
  match ctx.ec_ with
  | some slot => .ok (fun a => if a = slot then ec else store a)
  | none => if ec = 0 then .ok store else .error ec

/-! ## Theorems for C1 and C6 -/

/-- C1: awaiting through a yield context that carries an external
error-output slot (obtained via `operator[]`) writes a non-success
completion to that slot and raises no exception; without a slot, a
non-success completion is converted into a throw at the suspension point;
and `operator[]` returns a copy whose error-slot pointer is the supplied
slot while its task reference and executor equal the original's. -/
theorem yield_context_error_slot_redirects_and_default_throws
    {E : Type} (ctx : BasicYieldContext E) (ec : ErrorCode) (slot : Nat)
    (store : EcStore) (hec : ec ≠ 0) :
    (∃ store2 : EcStore, yieldResume (ctx.indexOp slot) ec store = .ok store2
      ∧ store2 slot = ec)
    ∧ (ctx.ec_ = none → yieldResume ctx ec store = .error ec)
    ∧ (ctx.indexOp slot).spawned_thread_ = ctx.spawned_thread_
    ∧ (ctx.indexOp slot).executor_ = ctx.executor_
    ∧ (ctx.indexOp slot).ec_ = some slot := by
  refine ⟨⟨fun a => if a = slot then ec else store a, rfl, by simp⟩, ?_, rfl, rfl, rfl⟩
  intro hnone
  simp [yieldResume, hnone, hec]

/-- Witness for C1 at a concrete context, error and slot. -/
theorem yield_context_error_slot_redirects_and_default_throws_witness :
    (7 : ErrorCode) ≠ 0 ∧
    (∃ store2 : EcStore,
        yieldResume ((BasicYieldContext.ofTask 1 (0 : Nat)).indexOp 5) 7
          (fun _ => 0) = .ok store2 ∧ store2 5 = 7)
    ∧ ((BasicYieldContext.ofTask 1 (0 : Nat)).ec_ = none →
        yieldResume (BasicYieldContext.ofTask 1 (0 : Nat)) 7 (fun _ => 0)
          = .error 7)
    ∧ ((BasicYieldContext.ofTask 1 (0 : Nat)).indexOp 5).spawned_thread_
        = (BasicYieldContext.ofTask 1 (0 : Nat)).spawned_thread_
    ∧ ((BasicYieldContext.ofTask 1 (0 : Nat)).indexOp 5).executor_
        = (BasicYieldContext.ofTask 1 (0 : Nat)).executor_
    ∧ ((BasicYieldContext.ofTask 1 (0 : Nat)).indexOp 5).ec_ = some 5 :=
  ⟨by decide,
    yield_context_error_slot_redirects_and_default_throws
      (BasicYieldContext.ofTask 1 (0 : Nat)) 7 5 (fun _ => 0) (by decide)⟩

/-- C6: converting a `basic_yield_context<OtherExecutor>` to
`basic_yield_context<Executor>` — possible exactly when a conversion
`OtherExecutor → Executor` is available, which the constructor takes as its
`is_convertible` constraint — preserves the reference to the owning spawned
task and the (possibly null) external error-output slot, and converts the
stored executor. -/
theorem yield_context_convert_preserves_task_and_slot
    {E1 E2 : Type} (conv : E1 → E2) (other : BasicYieldContext E1) :
    (BasicYieldContext.convert conv other).spawned_thread_
        = other.spawned_thread_
    ∧ (BasicYieldContext.convert conv other).ec_ = other.ec_
    ∧ (BasicYieldContext.convert conv other).executor_
        = conv other.executor_ := by
  exact ⟨rfl, rfl, rfl⟩

/-! ## polyfill_thread (src/unnamed/part_000, detail/polyfill_thread.hpp) -/

/-- The external `cpf::thread` (from `<polyfill/thread.hpp>`, outside the
sources), modelled as its observable state: whether the underlying OS
thread is still joinable, plus the per-thread tunables read and written
through `polyfill_thread`'s accessors. -/
structure CpfThread where
  joinable : Bool
  priority : Int
  native_priority : Int
  affinity : Nat
  dtor_action : Nat
deriving Repr, DecidableEq

/-- `cpf::thread::join()`: waits for the thread to exit; afterwards the
thread object is no longer joinable. Calling it requires joinability; the
guarded wrapper below supplies that guard. -/
def CpfThread.join (t : CpfThread) : CpfThread :=
  { t with joinable := false }

/-- `asio::detail::polyfill_thread`: owns a `cpf::thread` member `thread_`
(part_000 line 62). -/
structure PolyfillThread where
  thread_ : CpfThread
deriving Repr, DecidableEq

/-- The attributes a thread is constructed with (`cpf::thread::attributes`),
modelled as the initial values of the tunables they determine. -/
structure ThreadAttributes where
  priority : Int
  native_priority : Int
  affinity : Nat
  dtor_action : Nat
deriving Repr, DecidableEq

/-- `polyfill_thread::polyfill_thread(f, attributes)` (part_000 lines
30-34): starts a fresh thread running `f`; a freshly constructed thread is
joinable. -/
def PolyfillThread.create (a : ThreadAttributes) : PolyfillThread :=
  ⟨⟨true, a.priority, a.native_priority, a.affinity, a.dtor_action⟩⟩

/-- `polyfill_thread::join()` (part_000 lines 37-41):
`if (thread_.joinable()) thread_.join();`. The second component records
whether the underlying `cpf::thread::join` was actually performed. -/
def PolyfillThread.join (t : PolyfillThread) : PolyfillThread × Bool :=
  if t.thread_.joinable then (⟨t.thread_.join⟩, true) else (t, false)

/-- `polyfill_thread`'s priority getter (part_000 line 49). -/
def PolyfillThread.priority (t : PolyfillThread) : Int :=
  t.thread_.priority

/-- `polyfill_thread`'s priority setter (part_000 line 50). -/
def PolyfillThread.set_priority (t : PolyfillThread) (v : Int) :
    PolyfillThread :=
  ⟨{ t.thread_ with priority := v }⟩

/-- `polyfill_thread`'s native_priority getter (part_000 line 52). -/
def PolyfillThread.nativePriority (t : PolyfillThread) : Int :=
  t.thread_.native_priority

/-- `polyfill_thread`'s native_priority setter (part_000 line 53). -/
def PolyfillThread.set_native_priority (t : PolyfillThread) (v : Int) :
    PolyfillThread :=
  ⟨{ t.thread_ with native_priority := v }⟩

/-- `polyfill_thread`'s affinity getter (part_000 line 55). -/
def PolyfillThread.affinity (t : PolyfillThread) : Nat :=
  t.thread_.affinity

/-- `polyfill_thread`'s affinity setter (part_000 line 56). -/
def PolyfillThread.set_affinity (t : PolyfillThread) (v : Nat) :
    PolyfillThread :=
  ⟨{ t.thread_ with affinity := v }⟩

/-- `polyfill_thread`'s dtor_action getter (part_000 line 58). -/
def PolyfillThread.dtorAction (t : PolyfillThread) : Nat :=
  t.thread_.dtor_action

/-- `polyfill_thread`'s dtor_action setter (part_000 line 59). -/
def PolyfillThread.set_dtor_action (t : PolyfillThread) (v : Nat) :
    PolyfillThread :=
  ⟨{ t.thread_ with dtor_action := v }⟩

/-! ## thread_group (src/asio/include/asio/detail/thread_group.hpp) -/

/-- `thread_group::item` (thread_group.hpp lines 133-152): one node of the
intrusive chain, holding the node's thread. The node identity (its heap
address) is modelled by `id`; the `next_` pointer is the list structure. -/
structure Item where
  id : Nat
  thread_ : PolyfillThread
deriving Repr, DecidableEq

/-- `thread_group` state: `first_` is the intrusive chain starting at the
`first_` pointer (an empty list is the null pointer of a fresh or fully
joined group); `next_id` supplies fresh node identities for `new item`. -/
structure ThreadGroup where
  first_ : List Item
  next_id : Nat
deriving Repr, DecidableEq

/-- `thread_group::thread_group()` (lines 29-32): `first_(0)`. -/
def ThreadGroup.init : ThreadGroup :=
  ⟨[], 0⟩

/-- `thread_group::create_thread(f, attr)` (lines 41-49 and 61-65):
`first_ = new item(f, attr, first_)` — the new node, whose thread is
started with the given attributes, is pushed onto the front of the chain. -/
def ThreadGroup.create_thread (g : ThreadGroup) (a : ThreadAttributes) :
    ThreadGroup :=
  ⟨⟨g.next_id, PolyfillThread.create a⟩ :: g.first_, g.next_id + 1⟩

/-- `thread_group::create_threads(f, attr, num_threads)` (lines 51-57 and
67-73): calls `create_thread` `num_threads` times. -/
def ThreadGroup.create_threads (g : ThreadGroup) (a : ThreadAttributes) :
    Nat → ThreadGroup
  | 0 => g
  | n + 1 => (g.create_thread a).create_threads a n

/-- Observable events of `thread_group::join`: a node's thread being
joined, and the node being released (`delete tmp`). -/
inductive GroupEvent where
  | joined (id : Nat)
  | freed (id : Nat)
deriving Repr, DecidableEq

/-- Whether an event is a thread join. -/
def GroupEvent.isJoined : GroupEvent → Bool
  | .joined _ => true
  | .freed _ => false

/-- The loop body of `thread_group::join` (lines 120-129): while `first_`
is non-null, join `first_`'s thread, then unlink and delete the node.
Produces the event trace of one full run of the loop. -/
def joinLoop : List Item → List GroupEvent
  | [] => []
  | i :: rest => .joined i.id :: .freed i.id :: joinLoop rest

/-- `thread_group::join()` (lines 119-129): runs the loop to completion;
returns its event trace and the group afterwards (`first_` null). -/
def ThreadGroup.join (g : ThreadGroup) : List GroupEvent × ThreadGroup :=
  (joinLoop g.first_, { g with first_ := [] })

/-- `thread_group::~thread_group()` (lines 34-38): `join();`. -/
def ThreadGroup.destruct (g : ThreadGroup) : List GroupEvent × ThreadGroup :=
  g.join

/-- The walking loop of the priority setter (lines 77-85): visits every
node from `first_` on, applying the thread's setter. -/
def prioritySetLoop (v : Int) : List Item → List Item
  | [] => []
  | i :: rest => { i with thread_ := i.thread_.set_priority v }
      :: prioritySetLoop v rest

/-- `thread_group::priority(value)` (lines 77-85). -/
def ThreadGroup.set_priority (g : ThreadGroup) (v : Int) : ThreadGroup :=
  { g with first_ := prioritySetLoop v g.first_ }

/-- `thread_group::priority()` (line 76):
`return first_->thread_.priority();` — reads through `first_`
unconditionally; `none` models the null dereference on an empty group. -/
def ThreadGroup.priority (g : ThreadGroup) : Option Int :=
  g.first_.head?.map (fun i => i.thread_.priority)

/-- The walking loop of the native_priority setter (lines 88-95). -/
def nativePrioritySetLoop (v : Int) : List Item → List Item
  | [] => []
  | i :: rest => { i with thread_ := i.thread_.set_native_priority v }
      :: nativePrioritySetLoop v rest

/-- `thread_group::native_priority(value)` (lines 88-95). -/
def ThreadGroup.set_native_priority (g : ThreadGroup) (v : Int) :
    ThreadGroup :=
  { g with first_ := nativePrioritySetLoop v g.first_ }

/-- `thread_group::native_priority()` (line 87): reads through `first_`
unconditionally. -/
def ThreadGroup.nativePriority (g : ThreadGroup) : Option Int :=
  g.first_.head?.map (fun i => i.thread_.nativePriority)

/-- The walking loop of the affinity setter (lines 98-106). -/
def affinitySetLoop (v : Nat) : List Item → List Item
  | [] => []
  | i :: rest => { i with thread_ := i.thread_.set_affinity v }
      :: affinitySetLoop v rest

/-- `thread_group::affinity(value)` (lines 98-106). -/
def ThreadGroup.set_affinity (g : ThreadGroup) (v : Nat) : ThreadGroup :=
  { g with first_ := affinitySetLoop v g.first_ }

/-- `thread_group::affinity()` (line 97): reads through `first_`
unconditionally. -/
def ThreadGroup.affinity (g : ThreadGroup) : Option Nat :=
  g.first_.head?.map (fun i => i.thread_.affinity)

/-- The walking loop of the dtor_action setter (lines 109-116). -/
def dtorActionSetLoop (v : Nat) : List Item → List Item
  | [] => []
  | i :: rest => { i with thread_ := i.thread_.set_dtor_action v }
      :: dtorActionSetLoop v rest

/-- `thread_group::dtor_action(action)` (lines 109-116). -/
def ThreadGroup.set_dtor_action (g : ThreadGroup) (v : Nat) : ThreadGroup :=
  { g with first_ := dtorActionSetLoop v g.first_ }

/-- `thread_group::dtor_action()` (line 108): reads through `first_`
unconditionally. -/
def ThreadGroup.dtorAction (g : ThreadGroup) : Option Nat :=
  g.first_.head?.map (fun i => i.thread_.dtorAction)

/-! ## Helper lemmas about the thread group -/

/-- The join loop's trace: per node in list order, a join immediately
followed by the node's release. -/
theorem joinLoop_eq_flatMap (l : List Item) :
    joinLoop l
      = l.flatMap (fun i => [GroupEvent.joined i.id, GroupEvent.freed i.id]) := by
  induction l with
  | nil => rfl
  | cons i rest ih => simp [joinLoop, ih]

/-- The join loop joins exactly one thread per node. -/
theorem joinLoop_joined_count (l : List Item) :
    ((joinLoop l).filter GroupEvent.isJoined).length = l.length := by
  induction l with
  | nil => rfl
  | cons i rest ih => simp [joinLoop, GroupEvent.isJoined, ih]

/-- `create_threads` grows the chain by the requested count. -/
theorem create_threads_length (g : ThreadGroup) (a : ThreadAttributes) :
    ∀ n : Nat, (g.create_threads a n).first_.length = g.first_.length + n := by
  intro n
  induction n generalizing g with
  | zero => rfl
  | succ m ih =>
      have h := ih (g.create_thread a)
      simp only [ThreadGroup.create_threads] at h ⊢
      rw [h]
      simp [ThreadGroup.create_thread]
      omega

/-- The priority setter's loop is a map over the chain. -/
theorem prioritySetLoop_eq_map (v : Int) (l : List Item) :
    prioritySetLoop v l
      = l.map (fun i => { i with thread_ := i.thread_.set_priority v }) := by
  induction l with
  | nil => rfl
  | cons i rest ih => simp [prioritySetLoop, ih]

/-- The native_priority setter's loop is a map over the chain. -/
theorem nativePrioritySetLoop_eq_map (v : Int) (l : List Item) :
    nativePrioritySetLoop v l
      = l.map (fun i => { i with thread_ := i.thread_.set_native_priority v }) := by
  induction l with
  | nil => rfl
  | cons i rest ih => simp [nativePrioritySetLoop, ih]

/-- The affinity setter's loop is a map over the chain. -/
theorem affinitySetLoop_eq_map (v : Nat) (l : List Item) :
    affinitySetLoop v l
      = l.map (fun i => { i with thread_ := i.thread_.set_affinity v }) := by
  induction l with
  | nil => rfl
  | cons i rest ih => simp [affinitySetLoop, ih]

/-- The dtor_action setter's loop is a map over the chain. -/
theorem dtorActionSetLoop_eq_map (v : Nat) (l : List Item) :
    dtorActionSetLoop v l
      = l.map (fun i => { i with thread_ := i.thread_.set_dtor_action v }) := by
  induction l with
  | nil => rfl
  | cons i rest ih => simp [dtorActionSetLoop, ih]

/-! ## Theorems for C4, C7, C9, C10 -/

/-- C4: on a group holding K threads (however created — `create_threads`
yields K as witnessed by the first conjunct), `join()` joins every one of
the K threads in list order, releases each node immediately after its
thread joins, and leaves the internal list empty; a second `join()` on the
now-empty group is a no-op; and the destructor invokes `join()`. -/
theorem thread_group_join_all_then_empty
    (g : ThreadGroup) (K : Nat) (hK : g.first_.length = K) :
    (∀ (a : ThreadAttributes) (n : Nat),
      (ThreadGroup.init.create_threads a n).first_.length = n)
    ∧ g.join.1
        = g.first_.flatMap
            (fun i => [GroupEvent.joined i.id, GroupEvent.freed i.id])
    ∧ (g.join.1.filter GroupEvent.isJoined).length = K
    ∧ g.join.2.first_ = []
    ∧ g.join.2.join = ([], g.join.2)
    ∧ g.destruct = g.join := by
  refine ⟨?_, ?_, ?_, rfl, ?_, rfl⟩
  · intro a n
    have h := create_threads_length ThreadGroup.init a n
    simpa [ThreadGroup.init] using h
  · exact joinLoop_eq_flatMap g.first_
  · rw [show g.join.1 = joinLoop g.first_ from rfl, joinLoop_joined_count, hK]
  · simp [ThreadGroup.join, joinLoop]

/-- Witness for C4 on a concrete group of two threads. -/
theorem thread_group_join_all_then_empty_witness :
    ((ThreadGroup.init.create_threads ⟨0, 0, 0, 0⟩ 2).first_.length = 2)
    ∧ ((∀ (a : ThreadAttributes) (n : Nat),
        (ThreadGroup.init.create_threads a n).first_.length = n)
      ∧ (ThreadGroup.init.create_threads ⟨0, 0, 0, 0⟩ 2).join.1
          = (ThreadGroup.init.create_threads ⟨0, 0, 0, 0⟩ 2).first_.flatMap
              (fun i => [GroupEvent.joined i.id, GroupEvent.freed i.id])
      ∧ (((ThreadGroup.init.create_threads ⟨0, 0, 0, 0⟩ 2).join.1.filter
            GroupEvent.isJoined).length = 2)
      ∧ (ThreadGroup.init.create_threads ⟨0, 0, 0, 0⟩ 2).join.2.first_ = []
      ∧ (ThreadGroup.init.create_threads ⟨0, 0, 0, 0⟩ 2).join.2.join
          = ([], (ThreadGroup.init.create_threads ⟨0, 0, 0, 0⟩ 2).join.2)
      ∧ (ThreadGroup.init.create_threads ⟨0, 0, 0, 0⟩ 2).destruct
          = (ThreadGroup.init.create_threads ⟨0, 0, 0, 0⟩ 2).join) :=
  ⟨by decide,
    thread_group_join_all_then_empty
      (ThreadGroup.init.create_threads ⟨0, 0, 0, 0⟩ 2) 2 (by decide)⟩

/-- C7: each tunable setter walks the whole list and applies the value to
every thread in the group; each getter reads from the head node only —
which is the most-recently-added thread, since `create_thread` pushes the
new node onto the front of the list — and is not an aggregate: on any
non-empty chain it returns the head thread's value whatever the rest of
the chain holds. -/
theorem thread_group_setters_walk_getters_read_head
    (g : ThreadGroup) (v : Int) (w : Nat) (a : ThreadAttributes)
    (i : Item) (rest : List Item) (n : Nat) :
    (g.set_priority v).first_
        = g.first_.map (fun j => { j with thread_ := j.thread_.set_priority v })
    ∧ (g.set_native_priority v).first_
        = g.first_.map
            (fun j => { j with thread_ := j.thread_.set_native_priority v })
    ∧ (g.set_affinity w).first_
        = g.first_.map (fun j => { j with thread_ := j.thread_.set_affinity w })
    ∧ (g.set_dtor_action w).first_
        = g.first_.map
            (fun j => { j with thread_ := j.thread_.set_dtor_action w })
    ∧ (ThreadGroup.mk (i :: rest) n).priority = some i.thread_.priority
    ∧ (ThreadGroup.mk (i :: rest) n).nativePriority
        = some i.thread_.nativePriority
    ∧ (ThreadGroup.mk (i :: rest) n).affinity = some i.thread_.affinity
    ∧ (ThreadGroup.mk (i :: rest) n).dtorAction = some i.thread_.dtorAction
    ∧ (g.create_thread a).first_
        = ⟨g.next_id, PolyfillThread.create a⟩ :: g.first_
    ∧ (g.create_thread a).priority = some a.priority
    ∧ (g.create_thread a).nativePriority = some a.native_priority
    ∧ (g.create_thread a).affinity = some a.affinity
    ∧ (g.create_thread a).dtorAction = some a.dtor_action := by
  refine ⟨prioritySetLoop_eq_map v g.first_,
    nativePrioritySetLoop_eq_map v g.first_,
    affinitySetLoop_eq_map w g.first_,
    dtorActionSetLoop_eq_map w g.first_,
    rfl, rfl, rfl, rfl, rfl, rfl, rfl, rfl, rfl⟩

/-- C9: every `thread_group` getter reads through the head pointer, which
is defined only under the unstated precondition that the group is
non-empty: on a freshly constructed group, and again after `join()` has
emptied the list, the head pointer is null and the read is undefined
(`none`); with at least one thread present every getter is defined. -/
theorem thread_group_getters_require_nonempty
    (g : ThreadGroup) (h : g.first_ ≠ []) :
    (ThreadGroup.init.priority = none
      ∧ ThreadGroup.init.nativePriority = none
      ∧ ThreadGroup.init.affinity = none
      ∧ ThreadGroup.init.dtorAction = none)
    ∧ (∀ g2 : ThreadGroup,
        g2.join.2.priority = none
        ∧ g2.join.2.nativePriority = none
        ∧ g2.join.2.affinity = none
        ∧ g2.join.2.dtorAction = none)
    ∧ ((∃ x, g.priority = some x)
      ∧ (∃ x, g.nativePriority = some x)
      ∧ (∃ x, g.affinity = some x)
      ∧ (∃ x, g.dtorAction = some x)) := by
  refine ⟨⟨rfl, rfl, rfl, rfl⟩, fun g2 => ⟨rfl, rfl, rfl, rfl⟩, ?_⟩
  match hg : g.first_ with
  | [] => exact absurd hg h
  | i :: rest =>
      refine ⟨⟨i.thread_.priority, ?_⟩, ⟨i.thread_.nativePriority, ?_⟩,
        ⟨i.thread_.affinity, ?_⟩, ⟨i.thread_.dtorAction, ?_⟩⟩ <;>
      simp [ThreadGroup.priority, ThreadGroup.nativePriority,
        ThreadGroup.affinity, ThreadGroup.dtorAction, hg]

/-- Witness for C9 on a concrete one-thread group. -/
theorem thread_group_getters_require_nonempty_witness :
    (ThreadGroup.init.create_thread ⟨1, 2, 3, 4⟩).first_ ≠ [] ∧
    ((ThreadGroup.init.priority = none
      ∧ ThreadGroup.init.nativePriority = none
      ∧ ThreadGroup.init.affinity = none
      ∧ ThreadGroup.init.dtorAction = none)
    ∧ (∀ g2 : ThreadGroup,
        g2.join.2.priority = none
        ∧ g2.join.2.nativePriority = none
        ∧ g2.join.2.affinity = none
        ∧ g2.join.2.dtorAction = none)
    ∧ ((∃ x, (ThreadGroup.init.create_thread ⟨1, 2, 3, 4⟩).priority = some x)
      ∧ (∃ x, (ThreadGroup.init.create_thread ⟨1, 2, 3, 4⟩).nativePriority
            = some x)
      ∧ (∃ x, (ThreadGroup.init.create_thread ⟨1, 2, 3, 4⟩).affinity = some x)
      ∧ (∃ x, (ThreadGroup.init.create_thread ⟨1, 2, 3, 4⟩).dtorAction
            = some x))) :=
  ⟨by decide,
    thread_group_getters_require_nonempty
      (ThreadGroup.init.create_thread ⟨1, 2, 3, 4⟩) (by decide)⟩

/-- C10: `polyfill_thread::join` joins only when the underlying thread is
joinable, so calling it on an already-joined thread is a no-op — the state
is unchanged and no underlying join is performed — rather than undefined
behaviour; in particular it is idempotent. -/
theorem polyfill_thread_join_idempotent (t : PolyfillThread) :
    (t.thread_.joinable = false → t.join = (t, false))
    ∧ t.join.1.join = (t.join.1, false)
    ∧ t.join.1.join.1 = t.join.1 := by
  unfold PolyfillThread.join
  rcases t with ⟨⟨j, p, np, af, da⟩⟩
  cases j <;> simp [CpfThread.join]

/-- Witness for C10 on a concrete already-joined thread. -/
theorem polyfill_thread_join_idempotent_witness :
    ((⟨⟨false, 0, 0, 0, 0⟩⟩ : PolyfillThread).thread_.joinable = false →
      (⟨⟨false, 0, 0, 0, 0⟩⟩ : PolyfillThread).join
        = (⟨⟨false, 0, 0, 0, 0⟩⟩, false))
    ∧ (⟨⟨false, 0, 0, 0, 0⟩⟩ : PolyfillThread).join.1.join
        = ((⟨⟨false, 0, 0, 0, 0⟩⟩ : PolyfillThread).join.1, false)
    ∧ (⟨⟨false, 0, 0, 0, 0⟩⟩ : PolyfillThread).join.1.join.1
        = (⟨⟨false, 0, 0, 0, 0⟩⟩ : PolyfillThread).join.1 :=
  polyfill_thread_join_idempotent ⟨⟨false, 0, 0, 0, 0⟩⟩

/-! ## Spawn launcher (src/asio/include/asio/spawn.hpp lines 38-48 and
194-307, with the launcher body modelled from the spec where
asio/impl/spawn.hpp is missing from the sources) -/

/-- The declared completion signature: `void(exception_ptr)` or
`void(exception_ptr, T)`, with the value type `T` represented by a code. -/
inductive CompletionSig where
  | err : CompletionSig
  | errVal (T : Nat) : CompletionSig
deriving Repr, DecidableEq

/-- `detail::spawn_signature<T>` (spawn.hpp lines 38-48): the primary
template maps a non-void `T` to `void(exception_ptr, T)`; the
specialisation for `void` — represented by `none` — maps to
`void(exception_ptr)`. -/
def spawn_signature : Option Nat → CompletionSig
  | some T => .errVal T
  | none => .err

/-- An executor instance, by identity. A strand is such an executor whose
posted work items never run concurrently with each other. -/
abbrev ExecutorId := Nat

/-- One unit of work posted to an executor: the task to resume, tagged
with the executor it was posted on. -/
structure Work where
  taskId : Nat
  ex : ExecutorId
deriving Repr, DecidableEq

/-- The observable state of the executor collaborator: the queue of posted
work, and the log of task bodies the driving thread has actually entered,
in execution order. -/
structure Sched where
  queue : List Work
  started : List Nat
deriving Repr, DecidableEq

/-- The external executor's `post(work)`: schedule for later execution —
the work is appended to the queue and nothing runs inline. -/
def post (w : Work) (s : Sched) : Sched :=
  { s with queue := s.queue ++ [w] }

/-- Modelled from the spec: `detail::initiate_spawn<Executor>` (declared
at spawn.hpp lines 50-51; its body is in asio/impl/spawn.hpp, which is not
among the sources). Per the spec, launching allocates the new task and
schedules its first execution via `post` on the resolved executor. -/
def initiate_spawn (ex : ExecutorId) (taskId : Nat) (s : Sched) : Sched :=
  post ⟨taskId, ex⟩ s

/-- Modelled from the spec: the `spawn` overloads (spawn.hpp lines
194-307) initiate via `initiate_spawn` and immediately return the value
that the completion token's `async_initiate` contract produces. -/
def spawn_launch {R : Type} (ex : ExecutorId) (taskId : Nat)
    (tokenResult : R) (s : Sched) : R × Sched :=
  (tokenResult, initiate_spawn ex taskId s)

/-- Modelled from the spec: the overload
`spawn(const basic_yield_context<Executor>&, F, CompletionToken)`
(spawn.hpp lines 280-307) launches the new coroutine with
`initiate_spawn<Executor>` — the parent's executor type — on the parent
context's executor, which the new task inherits. -/
def spawn_from_yield {R : Type} (parent : BasicYieldContext ExecutorId)
    (taskId : Nat) (tokenResult : R) (s : Sched) : R × Sched :=
  spawn_launch parent.get_executor taskId tokenResult s

/-- The yield context handed to the newly spawned coroutine body: built
from the new task and the executor its launch resolved. -/
def childContext (parent : BasicYieldContext ExecutorId) (taskId : Nat) :
    BasicYieldContext ExecutorId :=
  BasicYieldContext.ofTask taskId parent.get_executor

/-- One dispatch step of a driving thread: dequeue the front work item and
enter that task's body. -/
def dispatchStep (s : Sched) : Sched :=
  match s.queue with
  | [] => s
  | w :: rest => { queue := rest, started := s.started ++ [w.taskId] }

/-- Modelled from the spec: the spawned task's run-to-completion wrapper
in asio/impl/spawn.hpp (not among the sources). The coroutine body either
returns a value (`none` for a void body) or throws; a thrown exception is
caught, captured as an `exception_ptr`, and delivered through the error
argument of the completion handler — the wrapper itself is total and never
rethrows into the driving thread. -/
def runSpawnedTask {H : Type} (body : Unit → Except ExceptionPtr (Option Nat))
    (handler : Option ExceptionPtr → Option Nat → H) : H :=
  match body () with
  | .error e => handler (some e) none
  | .ok v => handler none v

/-! ## Theorems for C2, C3, C5, C8 -/

/-- C2: `spawn` returns immediately with the value determined by the
completion token's contract, and the new coroutine's first execution is
scheduled via `post` on the resolved executor: the launch leaves the log
of entered bodies untouched — the body is never entered inline in the
caller's stack frame — and the task runs only once a driving thread later
dispatches the posted work. -/
theorem spawn_posts_never_runs_inline {R : Type} (ex : ExecutorId)
    (taskId : Nat) (tokenResult : R) (s : Sched) (hq : s.queue = []) :
    (spawn_launch ex taskId tokenResult s).1 = tokenResult
    ∧ (spawn_launch ex taskId tokenResult s).2.started = s.started
    ∧ (spawn_launch ex taskId tokenResult s).2.queue
        = s.queue ++ [⟨taskId, ex⟩]
    ∧ (dispatchStep (spawn_launch ex taskId tokenResult s).2).started
        = s.started ++ [taskId] := by
  refine ⟨rfl, rfl, rfl, ?_⟩
  simp [spawn_launch, initiate_spawn, post, dispatchStep, hq]

/-- Witness for C2 at a concrete launch from an empty queue. -/
theorem spawn_posts_never_runs_inline_witness :
    (Sched.mk [] [] : Sched).queue = [] ∧
    ((spawn_launch 2 9 (37 : Nat) (Sched.mk [] [])).1 = 37
    ∧ (spawn_launch 2 9 (37 : Nat) (Sched.mk [] [])).2.started
        = (Sched.mk [] [] : Sched).started
    ∧ (spawn_launch 2 9 (37 : Nat) (Sched.mk [] [])).2.queue
        = (Sched.mk [] [] : Sched).queue ++ [⟨9, 2⟩]
    ∧ (dispatchStep (spawn_launch 2 9 (37 : Nat) (Sched.mk [] [])).2).started
        = (Sched.mk [] [] : Sched).started ++ [9]) :=
  ⟨rfl, spawn_posts_never_runs_inline 2 9 37 (Sched.mk [] []) rfl⟩

/-- C3: when the spawned coroutine body exits by throwing, the exception
is captured and delivered through the error slot of the completion
handler; the wrapper always terminates by invoking the handler — it never
propagates the exception out of the driving thread (its result is always a
value of the handler's type, produced by a handler call). -/
theorem spawn_body_throw_goes_to_error_slot
    (body : Unit → Except ExceptionPtr (Option Nat)) (e : ExceptionPtr)
    (hthrow : body () = .error e) :
    (∀ (H : Type) (handler : Option ExceptionPtr → Option Nat → H),
      runSpawnedTask body handler = handler (some e) none)
    ∧ (∀ anyBody : Unit → Except ExceptionPtr (Option Nat),
        ∃ err val,
          runSpawnedTask anyBody (fun a b => (a, b)) = (err, val)) := by
  constructor
  · intro H handler
    simp [runSpawnedTask, hthrow]
  · intro anyBody
    unfold runSpawnedTask
    match anyBody () with
    | .error e2 => exact ⟨some e2, none, rfl⟩
    | .ok v => exact ⟨none, v, rfl⟩

/-- Witness for C3 with a concretely throwing body. -/
theorem spawn_body_throw_goes_to_error_slot_witness :
    ((fun _ => .error 11 : Unit → Except ExceptionPtr (Option Nat)) ()
        = .error 11)
    ∧ ((∀ (H : Type) (handler : Option ExceptionPtr → Option Nat → H),
        runSpawnedTask (fun _ => .error 11) handler = handler (some 11) none)
      ∧ (∀ anyBody : Unit → Except ExceptionPtr (Option Nat),
          ∃ err val,
            runSpawnedTask anyBody (fun a b => (a, b)) = (err, val))) :=
  ⟨rfl, spawn_body_throw_goes_to_error_slot (fun _ => .error 11) 11 rfl⟩

/-- C5: spawning from an existing yield context launches the new task on
the parent's executor — the posted first execution carries exactly the
parent context's executor (and, the overload being
`initiate_spawn<Executor>` for the parent's `Executor`, the same executor
type), and the child's own yield context is bound to that same executor,
so both run under the same mutual-exclusion domain. -/
theorem spawn_from_yield_inherits_executor {R : Type}
    (parent : BasicYieldContext ExecutorId) (taskId : Nat)
    (tokenResult : R) (s : Sched) :
    (spawn_from_yield parent taskId tokenResult s).2.queue
        = s.queue ++ [⟨taskId, parent.executor_⟩]
    ∧ (childContext parent taskId).executor_ = parent.executor_
    ∧ (childContext parent taskId).spawned_thread_ = taskId
    ∧ (spawn_from_yield parent taskId tokenResult s).1 = tokenResult := by
  exact ⟨rfl, rfl, rfl, rfl⟩

/-- C8: the completion signature resolved by `spawn` is
`void(exception_ptr)` exactly when the coroutine function returns void and
`void(exception_ptr, T)` when it returns a `T`; and the contract is
token-polymorphic — for any handler type whatsoever, the launcher delivers
the outcome through the supplied handler, so any completion token
implementing the signature can be substituted. -/
theorem spawn_signature_void_vs_value (T : Nat) :
    spawn_signature none = CompletionSig.err
    ∧ spawn_signature (some T) = CompletionSig.errVal T
    ∧ (∀ T2 : Nat, spawn_signature (some T2) ≠ spawn_signature none)
    ∧ (∀ (H : Type) (handler : Option ExceptionPtr → Option Nat → H)
        (body : Unit → Except ExceptionPtr (Option Nat)),
        ∃ err val, runSpawnedTask body handler = handler err val) := by
  refine ⟨rfl, rfl, fun T2 h => by simp [spawn_signature] at h, ?_⟩
  intro H handler body
  unfold runSpawnedTask
  match body () with
  | .error e => exact ⟨some e, none, rfl⟩
  | .ok v => exact ⟨none, v, rfl⟩

end Asio
